import Mathlib

/-
Verification of the Enrolment Dates Checker reconciliation engine
(Enrolment_Dates_Checker.py): record validation, date normalization,
cleaning, and the cross-source date comparison.

Rows are positional lists of fields.  Validator-level rows use
`Option String` cells so that the Python test `field in (None, '')`
is representable; cleaner-level rows are plain `String` lists, as the
CSV reader only ever supplies strings to the cleaners.

External collaborators from the `custtools` package
(`db.extract_course_code`, `da.clean_date`) are not part of this
repository's source; they are passed as function parameters where the
behaviour matters, or modelled from the spec where the spec pins their
behaviour down.
-/

/-- Python `str.strip()`: remove leading and trailing whitespace. -/
def pyStrip (s : String) : String :=
  ((s.data.dropWhile Char.isWhitespace).reverse.dropWhile
    Char.isWhitespace).reverse.asString

/-- Python test `x in (None, '')` on a raw cell. -/
def nullOrEmpty : Option String → Bool
  | none => true
  | some s => s == ""

/-- Python `str.format` rendering of a raw cell (`None` prints as "None"). -/
def fieldStr : Option String → String
  | none => "None"
  | some s => s

/-- `clean_date` (spec name `padDay`): if the date string has exactly 9
characters, prepend a leading '0'; otherwise return it unchanged. -/
def clean_date (date : String) : String :=
  if date.length = 9 then "0" ++ date else date

/-- Python slice `s[a:b]` on a string (clamping, never failing). -/
def pySlice (s : String) (a b : Nat) : String :=
  ((s.data.drop a).take (b - a)).asString

/-- `clean_date_2` (spec name `formatFromTimestamp`): take the string form
of the value and reassemble chars 8-9 (day), 5-6 (month) and 0-3 (year)
as DD/MM/YYYY.  The Python first applies `str`; the embedding receives
the string form directly. -/
def clean_date_2 (date : String) : String :=
  let str_date := date
  let day := pySlice str_date 8 10
  let month := pySlice str_date 5 7
  let year := pySlice str_date 0 4
  day ++ "/" ++ month ++ "/" ++ year

/-- `remove_students`: loop over the students, keeping those whose field at
`location` differs from `identifier`. -/
def remove_students (students : List (List String)) (location : Nat)
    (identifier : String) : List (List String) :=
  students.foldl
    (fun updated_list student =>
      if student.getD location "" ≠ identifier then updated_list ++ [student]
      else updated_list) []

/-- `clean_lp_data`: per row, trim StudentID and StudentName, extract the
course code from the free-text label, normalize the two date fields, then
drop rows whose course code is "Skip".  `ecc` stands for the external
collaborator `db.extract_course_code` and `dcd` for `da.clean_date`
(both from `custtools`, outside this repository); they are parameters of
the embedding. -/
def clean_lp_data (ecc dcd : String → String) (raw_data : List (List String)) :
    List (List String) :=
  let cleaned_data := raw_data.foldl
    (fun cleaned_data student =>
      cleaned_data ++ [[pyStrip (student.getD 0 ""), pyStrip (student.getD 1 ""),
        pyStrip (ecc (student.getD 2 "")), dcd (student.getD 3 ""),
        dcd (student.getD 4 "")]]) []
  remove_students cleaned_data 2 "Skip"

/-- Modelled from the spec: `da.clean_date` (module `custtools.datetools`)
is not under src/; §4.3 states that Source B cleaning applies the Date
Normalizer `formatFromTimestamp` to fields 3 and 4, i.e. the behaviour of
`clean_date_2`. -/
def da_clean_date (date : String) : String :=
  clean_date_2 date

/-- `clean_sd_data`: per row, trim StudentID and Course and normalize the
two date fields with `clean_date`; no filtering. -/
def clean_sd_data (raw_data : List (List String)) : List (List String) :=
  raw_data.foldl
    (fun cleaned_data student =>
      cleaned_data ++ [[pyStrip (student.getD 0 ""), pyStrip (student.getD 1 ""),
        clean_date (student.getD 3 ""), clean_date (student.getD 4 "")]]) []

/-- A DD/MM/YYYY date string with zero-padded two-digit day and month. -/
def matchesDDMMYYYY (s : String) : Bool :=
  match s.data with
  | [d1, d2, a, m1, m2, b, y1, y2, y3, y4] =>
    d1.isDigit && d2.isDigit && a == '/' && m1.isDigit && m2.isDigit &&
      b == '/' && y1.isDigit && y2.isDigit && y3.isDigit && y4.isDigit
  | _ => false

/-- A D/MM/YYYY date string (day missing its leading zero). -/
def matchesDMMYYYY (s : String) : Bool :=
  match s.data with
  | [d1, a, m1, m2, b, y1, y2, y3, y4] =>
    d1.isDigit && a == '/' && m1.isDigit && m2.isDigit &&
      b == '/' && y1.isDigit && y2.isDigit && y3.isDigit && y4.isDigit
  | _ => false

/-- Result of one validator pass.  The Python functions return the pair
`(bool, warnings)`; the embedding additionally records the internal
`errors` list and the error-log sink invocation (`ft.process_error_log`,
an external fire-and-forget collaborator) as data, so that properties
about them can be stated. -/
structure CheckResult where
  hasWarnings : Bool
  warnings : List String
  errors : List String
  errorLog : Option (List String × String)
deriving DecidableEq, Repr

/-- The loop body of `check_edsd`: one pass over the rows, threading the
mutable `errors` and `warnings` accumulators. -/
def check_edsd_loop :
    List (List (Option String)) → List String → List String →
      List String × List String
  | [], errors, warnings => (errors, warnings)
  | student :: rest, errors, warnings =>
    let errors := if nullOrEmpty (student.getD 1 none) then
      errors ++ ["Course code is missing for student with Student ID " ++
        fieldStr (student.getD 0 none)] else errors
    let warnings := if nullOrEmpty (student.getD 2 none) then
      warnings ++ ["Tutor is missing for student with Student ID " ++
        fieldStr (student.getD 0 none)] else warnings
    let errors := if nullOrEmpty (student.getD 3 none) then
      errors ++ ["Enrolment Date is missing for student with Student ID " ++
        fieldStr (student.getD 0 none)] else errors
    let errors := if nullOrEmpty (student.getD 4 none) then
      errors ++ ["Expiry Date is missing for student with Student ID " ++
        fieldStr (student.getD 0 none)] else errors
    check_edsd_loop rest errors warnings

/-- `check_edsd`: validate the Enrolment Dates (Student Database) rows.
Field 1 (Course), 3 (Enrolment Date) and 4 (Expiry Date) missing are
errors; field 2 (Tutor) missing is a warning.  If any errors were
collected the error log is persisted under the report name; the function
returns `(warnings.length > 1, warnings)`. -/
def check_edsd (report_data : List (List (Option String))) : CheckResult :=
  let (errors, warnings) := check_edsd_loop report_data []
    ["\nEnrolment Dates (Student Database) Report Warnings:\n"]
  let errorLog := if errors.length > 0 then
    some (errors, "Enrolment Dates (Student Database) Report") else none
  if warnings.length > 1 then ⟨true, warnings, errors, errorLog⟩
  else ⟨false, warnings, errors, errorLog⟩

/-- The loop body of `check_edlp`: one pass over the rows, threading the
mutable `errors` and `warnings` accumulators. -/
def check_edlp_loop :
    List (List (Option String)) → List String → List String →
      List String × List String
  | [], errors, warnings => (errors, warnings)
  | student :: rest, errors, warnings =>
    let warnings := if nullOrEmpty (student.getD 1 none) then
      warnings ++ ["Student Name is missing for student with Student ID " ++
        fieldStr (student.getD 0 none)] else warnings
    let errors := if nullOrEmpty (student.getD 2 none) then
      errors ++ ["Course is missing for student with Student ID " ++
        fieldStr (student.getD 0 none)] else errors
    let errors := if nullOrEmpty (student.getD 3 none) then
      errors ++ ["Enrolment Date is missing for student with Student ID " ++
        fieldStr (student.getD 0 none)] else errors
    let errors := if nullOrEmpty (student.getD 4 none) then
      errors ++ ["Expiry Date is missing for student with Student ID " ++
        fieldStr (student.getD 0 none)] else errors
    check_edlp_loop rest errors warnings

/-- `check_edlp`: validate the Enrolment Dates (Learning Platform) rows.
Field 1 (Student Name) missing is a warning; fields 2 (Course), 3
(Enrolment Date) and 4 (Expiry Date) missing are errors. -/
def check_edlp (report_data : List (List (Option String))) : CheckResult :=
  let (errors, warnings) := check_edlp_loop report_data []
    ["\nEnrolment Dates (Learning Platform) Report Warnings:\n"]
  let errorLog := if errors.length > 0 then
    some (errors, "Enrolment Dates (Learning Platform) Report") else none
  if warnings.length > 1 then ⟨true, warnings, errors, errorLog⟩
  else ⟨false, warnings, errors, errorLog⟩

-- Per-row classification of the validator contracts, used to state what
-- one pass of the loops accumulates.

/-- Errors contributed by one Source A row: missing Course (field 1),
Enrolment Date (field 3), Expiry Date (field 4). -/
def edsdRowErrors (student : List (Option String)) : List String :=
  (if nullOrEmpty (student.getD 1 none) then
    ["Course code is missing for student with Student ID " ++
      fieldStr (student.getD 0 none)] else []) ++
  (if nullOrEmpty (student.getD 3 none) then
    ["Enrolment Date is missing for student with Student ID " ++
      fieldStr (student.getD 0 none)] else []) ++
  (if nullOrEmpty (student.getD 4 none) then
    ["Expiry Date is missing for student with Student ID " ++
      fieldStr (student.getD 0 none)] else [])

/-- Warnings contributed by one Source A row: missing Tutor (field 2). -/
def edsdRowWarnings (student : List (Option String)) : List String :=
  if nullOrEmpty (student.getD 2 none) then
    ["Tutor is missing for student with Student ID " ++
      fieldStr (student.getD 0 none)] else []

/-- Errors contributed by one Source B row: missing Course (field 2),
Enrolment Date (field 3), Expiry Date (field 4). -/
def edlpRowErrors (student : List (Option String)) : List String :=
  (if nullOrEmpty (student.getD 2 none) then
    ["Course is missing for student with Student ID " ++
      fieldStr (student.getD 0 none)] else []) ++
  (if nullOrEmpty (student.getD 3 none) then
    ["Enrolment Date is missing for student with Student ID " ++
      fieldStr (student.getD 0 none)] else []) ++
  (if nullOrEmpty (student.getD 4 none) then
    ["Expiry Date is missing for student with Student ID " ++
      fieldStr (student.getD 0 none)] else [])

/-- Warnings contributed by one Source B row: missing Student Name
(field 1). -/
def edlpRowWarnings (student : List (Option String)) : List String :=
  if nullOrEmpty (student.getD 1 none) then
    ["Student Name is missing for student with Student ID " ++
      fieldStr (student.getD 0 none)] else []

/-- One row of the left join: the left-table row together with the
matching right-table row, or `none` when the key found no match (pandas
fills the right-hand columns with NaN). -/
structure JoinedRow where
  left : List String
  right : Option (List String)
deriving DecidableEq, Repr

/-- `pd.merge(df_1, df_2, on = common, how = 'left')` on row lists:
every left row is kept; a key with no right match yields one row with an
empty right side; several right matches fan out, one joined row per
match, in right-table order.  `k1`/`k2` are the positions of the join
column in the left and right schemas. -/
def mergeLeft (df1 df2 : List (List String)) (k1 k2 : Nat) : List JoinedRow :=
  df1.flatMap (fun r1 =>
    if (df2.filter (fun r2 => r2.getD k2 "" == r1.getD k1 "")).isEmpty then
      [JoinedRow.mk r1 none]
    else
      (df2.filter (fun r2 => r2.getD k2 "" == r1.getD k1 "")).map
        (fun r2 => JoinedRow.mk r1 (some r2)))

/-- The comparison `row[col_name + '_1'] != row[col_name + '_2']` on a
joined row: a missing right side (NaN) is unequal to any string. -/
def dateMismatch (c1 c2 : Nat) (jr : JoinedRow) : Bool :=
  match jr.right with
  | none => true
  | some r2 => jr.left.getD c1 "" != r2.getD c2 ""

/-- A requested output column: either column `i` of the left table
(`Sum.inl i`, the `_1`-suffixed or left-only names) or column `j` of the
right table (`Sum.inr j`, the `_2`-suffixed names). -/
def projectRow (headings : List (Nat ⊕ Nat)) (jr : JoinedRow) :
    List (Option String) :=
  headings.map (fun h =>
    match h with
    | Sum.inl i => some (jr.left.getD i "")
    | Sum.inr j => jr.right.map (fun r2 => r2.getD j ""))

/-- `compare_dates`: left-join the two tables on the common key, walk the
joined rows in order, and collect `row[headings]` for every row whose two
date cells differ. -/
def compare_dates (df1 df2 : List (List String)) (k1 k2 c1 c2 : Nat)
    (headings : List (Nat ⊕ Nat)) : List (List (Option String)) :=
  (mergeLeft df1 df2 k1 k2).foldl
    (fun differing row =>
      if dateMismatch c1 c2 row then differing ++ [projectRow headings row]
      else differing) []

/-- `load_data`, file handling modelled away: `file_rows` are the CSV
rows after the skipped header line.  Rows with a null-or-empty leading
key are dropped; the per-source validator is run on the kept rows but —
exactly as in the source — its result is discarded; the locally created
`warnings` list is never appended to before being returned. -/
def load_data (file_rows : List (List (Option String))) (source : String) :
    List (List (Option String)) × Bool × List String :=
  let read_data := file_rows.filter (fun row => !nullOrEmpty (row.getD 0 none))
  let _checked : Option CheckResult :=
    if source == "edlp" then some (check_edlp read_data)
    else if source == "edsd" then some (check_edsd read_data)
    else none
  let warnings : List String := []
  if warnings.length > 0 then (read_data, true, warnings)
  else (read_data, false, warnings)

/-- The single call to the warning log sink `ft.process_warning_log`
at the end of a top-level processing operation. -/
structure WarningLogCall where
  warnings : List String
  hasWarnings : Bool
deriving DecidableEq, Repr

/-- The warning-flow of `process_enrolment_dates`: the local `warnings`
list and `warnings_to_process` flag are initialised, both source files
are loaded (the `to_add` flags and `warnings_to_add` lists returned by
`load_data` are bound but never used, exactly as in the source), and the
warning log sink is invoked with the local accumulator and flag. -/
def process_enrolment_dates_log
    (lp_file_rows sd_file_rows : List (List (Option String))) :
    WarningLogCall :=
  let warnings := ["\nProcessing Enrolment Dates data Warnings:\n"]
  let warnings_to_process := false
  let (_raw_lp_data, _to_add, _warnings_to_add) := load_data lp_file_rows "edlp"
  let (_raw_sd_data, _to_add2, _warnings_to_add2) := load_data sd_file_rows "edsd"
  WarningLogCall.mk warnings warnings_to_process

-- List helpers: the Python pattern `for x in l: acc.append(...)` as a fold.

theorem foldl_append_eq_map {α β : Type} (f : α → β) :
    ∀ (l : List α) (acc : List β),
      l.foldl (fun a x => a ++ [f x]) acc = acc ++ l.map f := by
  intro l
  induction l with
  | nil => intro acc; simp
  | cons x xs ih => intro acc; simp [List.foldl, ih]

theorem foldl_ite_append_eq_filter_map {α β : Type} (p : α → Bool) (f : α → β) :
    ∀ (l : List α) (acc : List β),
      l.foldl (fun a x => if p x then a ++ [f x] else a) acc
        = acc ++ (l.filter p).map f := by
  intro l
  induction l with
  | nil => intro acc; simp
  | cons x xs ih =>
    intro acc
    by_cases h : p x
    · simp [List.foldl, h, ih]
    · simp [List.foldl, h, ih]

-- Characterizations of the validator loops and cleaner loops.

theorem check_edsd_loop_spec :
    ∀ (rows : List (List (Option String))) (errors warnings : List String),
      check_edsd_loop rows errors warnings
        = (errors ++ rows.flatMap edsdRowErrors,
           warnings ++ rows.flatMap edsdRowWarnings) := by
  intro rows
  induction rows with
  | nil => intro e w; simp [check_edsd_loop]
  | cons r rest ih =>
    intro e w
    show check_edsd_loop rest _ _ = _
    rw [ih]
    by_cases h1 : nullOrEmpty (r.getD 1 none) <;>
      by_cases h2 : nullOrEmpty (r.getD 2 none) <;>
      by_cases h3 : nullOrEmpty (r.getD 3 none) <;>
      by_cases h4 : nullOrEmpty (r.getD 4 none) <;>
      simp_all [edsdRowErrors, edsdRowWarnings]

theorem check_edlp_loop_spec :
    ∀ (rows : List (List (Option String))) (errors warnings : List String),
      check_edlp_loop rows errors warnings
        = (errors ++ rows.flatMap edlpRowErrors,
           warnings ++ rows.flatMap edlpRowWarnings) := by
  intro rows
  induction rows with
  | nil => intro e w; simp [check_edlp_loop]
  | cons r rest ih =>
    intro e w
    show check_edlp_loop rest _ _ = _
    rw [ih]
    by_cases h1 : nullOrEmpty (r.getD 1 none) <;>
      by_cases h2 : nullOrEmpty (r.getD 2 none) <;>
      by_cases h3 : nullOrEmpty (r.getD 3 none) <;>
      by_cases h4 : nullOrEmpty (r.getD 4 none) <;>
      simp_all [edlpRowErrors, edlpRowWarnings]

theorem check_edsd_eq (rows : List (List (Option String))) :
    check_edsd rows
      = ⟨!(rows.flatMap edsdRowWarnings).isEmpty,
         "\nEnrolment Dates (Student Database) Report Warnings:\n"
           :: rows.flatMap edsdRowWarnings,
         rows.flatMap edsdRowErrors,
         if (rows.flatMap edsdRowErrors).isEmpty then none
         else some (rows.flatMap edsdRowErrors,
           "Enrolment Dates (Student Database) Report")⟩ := by
  unfold check_edsd
  rw [check_edsd_loop_spec]
  generalize rows.flatMap edsdRowErrors = E
  generalize rows.flatMap edsdRowWarnings = W
  cases E <;> cases W <;> simp

theorem check_edlp_eq (rows : List (List (Option String))) :
    check_edlp rows
      = ⟨!(rows.flatMap edlpRowWarnings).isEmpty,
         "\nEnrolment Dates (Learning Platform) Report Warnings:\n"
           :: rows.flatMap edlpRowWarnings,
         rows.flatMap edlpRowErrors,
         if (rows.flatMap edlpRowErrors).isEmpty then none
         else some (rows.flatMap edlpRowErrors,
           "Enrolment Dates (Learning Platform) Report")⟩ := by
  unfold check_edlp
  rw [check_edlp_loop_spec]
  generalize rows.flatMap edlpRowErrors = E
  generalize rows.flatMap edlpRowWarnings = W
  cases E <;> cases W <;> simp

/-- C5: the validators classify null-or-empty fields by the per-source
contract (Source A: field 1 Course, field 3 Enrolment Date, field 4
Expiry Date are errors, field 2 Tutor is a warning; Source B: field 1
Student Name is a warning, fields 2, 3, 4 are errors), return a warnings
list headed by the report header, and a boolean that is true exactly when
at least one warning beyond the header was appended; on Source A rows
`[["1","","T","1/1/2020","1/1/2021"]]` there is one error (missing
Course) and no warning beyond the header, and on Source B rows
`[["1","","C","1/1/2020","1/1/2021"]]` there is one warning (missing
Student Name) and zero errors. -/
theorem validators_classify_fields (rows : List (List (Option String))) :
    ((check_edsd rows).errors = rows.flatMap edsdRowErrors ∧
     (check_edsd rows).warnings
       = "\nEnrolment Dates (Student Database) Report Warnings:\n"
           :: rows.flatMap edsdRowWarnings ∧
     (check_edsd rows).hasWarnings
       = !(rows.flatMap edsdRowWarnings).isEmpty) ∧
    ((check_edlp rows).errors = rows.flatMap edlpRowErrors ∧
     (check_edlp rows).warnings
       = "\nEnrolment Dates (Learning Platform) Report Warnings:\n"
           :: rows.flatMap edlpRowWarnings ∧
     (check_edlp rows).hasWarnings
       = !(rows.flatMap edlpRowWarnings).isEmpty) ∧
    check_edsd [[some "1", some "", some "T", some "1/1/2020", some "1/1/2021"]]
      = ⟨false, ["\nEnrolment Dates (Student Database) Report Warnings:\n"],
         ["Course code is missing for student with Student ID 1"],
         some (["Course code is missing for student with Student ID 1"],
           "Enrolment Dates (Student Database) Report")⟩ ∧
    check_edlp [[some "1", some "", some "C", some "1/1/2020", some "1/1/2021"]]
      = ⟨true, ["\nEnrolment Dates (Learning Platform) Report Warnings:\n",
          "Student Name is missing for student with Student ID 1"],
         [], none⟩ := by
  refine ⟨⟨?_, ?_, ?_⟩, ⟨?_, ?_, ?_⟩, by decide, by decide⟩ <;>
    simp [check_edsd_eq, check_edlp_eq]

/-- C6: each validator invokes the external error-log sink exactly when at
least one error was collected during the full pass, labeled with that
source's report name; the embedding of each validator is a total function
returning a `CheckResult` for every input, so the caller always proceeds
to clean and reconcile the data even when errors exist. -/
theorem validators_log_errors (rows : List (List (Option String))) :
    (check_edsd rows).errorLog
      = (if (rows.flatMap edsdRowErrors).isEmpty then none
         else some (rows.flatMap edsdRowErrors,
           "Enrolment Dates (Student Database) Report")) ∧
    (check_edlp rows).errorLog
      = (if (rows.flatMap edlpRowErrors).isEmpty then none
         else some (rows.flatMap edlpRowErrors,
           "Enrolment Dates (Learning Platform) Report")) := by
  simp [check_edsd_eq, check_edlp_eq]

/-- C3 (code bug): the validator does collect the Tutor warning and report
`hasWarnings = true`, but `load_data` discards that result and returns an
always-empty warnings list with flag `false`, and
`process_enrolment_dates` invokes the warning log sink with only its
static header and `hasWarnings = false` — the missing-Tutor warning never
reaches the operator, contradicting the spec and the source's own
docstrings. -/
theorem warning_log_call_drops_validator_warnings :
    (check_edsd [[some "1", some "C", some "",
        some "1/1/2020", some "1/1/2021"]]).hasWarnings = true ∧
    (check_edsd [[some "1", some "C", some "",
        some "1/1/2020", some "1/1/2021"]]).warnings
      = ["\nEnrolment Dates (Student Database) Report Warnings:\n",
         "Tutor is missing for student with Student ID 1"] ∧
    load_data [[some "1", some "C", some "",
        some "1/1/2020", some "1/1/2021"]] "edsd"
      = ([[some "1", some "C", some "", some "1/1/2020", some "1/1/2021"]],
         false, []) ∧
    process_enrolment_dates_log
        [[some "1", some "N", some "C", some "1/1/2020", some "1/1/2021"]]
        [[some "1", some "C", some "", some "1/1/2020", some "1/1/2021"]]
      = ⟨["\nProcessing Enrolment Dates data Warnings:\n"], false⟩ := by
  decide

/-- C8: for every value whose string form begins with a fixed-width
year-month-day, `clean_date_2` returns characters 8-9 (day), a slash,
characters 5-6 (month), a slash, and characters 0-3 (year); in
particular `clean_date_2 "2020-03-05T00:00:00" = "05/03/2020"`. -/
theorem clean_date_2_extracts_fixed_offsets
    (c0 c1 c2 c3 c4 c5 c6 c7 c8 c9 : Char) (rest : List Char) :
    clean_date_2 ⟨c0 :: c1 :: c2 :: c3 :: c4 :: c5 :: c6 :: c7 :: c8 :: c9
        :: rest⟩
      = ⟨[c8, c9, '/', c5, c6, '/', c0, c1, c2, c3]⟩ ∧
    clean_date_2 "2020-03-05T00:00:00" = "05/03/2020" :=
  ⟨rfl, rfl⟩

/-- C9: `clean_date` returns the input with '0' prepended when the input
is exactly 9 characters long, returns the input unchanged otherwise, and
in particular is the identity on every 10-character string. -/
theorem clean_date_pads_iff_len9 (s : String) :
    (s.length = 9 → clean_date s = "0" ++ s) ∧
    (s.length ≠ 9 → clean_date s = s) ∧
    (s.length = 10 → clean_date s = s) := by
  refine ⟨fun h => ?_, fun h => ?_, fun h => ?_⟩ <;> simp [clean_date, h]

/-- Witness for C9 at the concrete inputs "1/03/2020" (9 characters,
padded) and "01/03/2020" (10 characters, unchanged). -/
theorem clean_date_pads_iff_len9_witness :
    clean_date "1/03/2020" = "0" ++ "1/03/2020" ∧
    clean_date "01/03/2020" = "01/03/2020" :=
  ⟨(clean_date_pads_iff_len9 "1/03/2020").1 (by decide),
   (clean_date_pads_iff_len9 "01/03/2020").2.2 (by decide)⟩

/-- C10: `clean_date` is idempotent: a 9-character input becomes
10 characters after padding, and every other length is left unchanged. -/
theorem clean_date_idempotent (s : String) :
    clean_date (clean_date s) = clean_date s := by
  by_cases h : s.length = 9
  · have h10 : ("0" ++ s).length = 10 := by
      rw [String.length_append, h]
      decide
    simp [clean_date, h, h10]
  · simp [clean_date, h]

-- Shape lemmas for the date normalizer.

theorem matchesDDMMYYYY_length {s : String} (h : matchesDDMMYYYY s = true) :
    s.length = 10 := by
  unfold matchesDDMMYYYY at h
  split at h
  · next heq => show s.data.length = 10; rw [heq]; rfl
  · exact absurd h (by simp)

theorem matchesDMMYYYY_length {s : String} (h : matchesDMMYYYY s = true) :
    s.length = 9 := by
  unfold matchesDMMYYYY at h
  split at h
  · next heq => show s.data.length = 9; rw [heq]; rfl
  · exact absurd h (by simp)

theorem clean_date_preserves_DD {s : String} (h : matchesDDMMYYYY s = true) :
    matchesDDMMYYYY (clean_date s) = true := by
  have h10 := matchesDDMMYYYY_length h
  have hcd : clean_date s = s := by simp [clean_date, h10]
  rw [hcd]; exact h

theorem clean_date_pads_DMM {s : String} (h : matchesDMMYYYY s = true) :
    matchesDDMMYYYY (clean_date s) = true := by
  have h9 := matchesDMMYYYY_length h
  have hcd : clean_date s = "0" ++ s := by simp [clean_date, h9]
  have hdata : ("0" ++ s).data = '0' :: s.data := by
    rw [String.data_append]; rfl
  rw [hcd]
  unfold matchesDMMYYYY at h
  unfold matchesDDMMYYYY
  rw [hdata]
  split at h
  · next d1 a m1 m2 b y1 y2 y3 y4 heq =>
    rw [heq]
    simp at h ⊢
    simp [h]
  · exact absurd h (by simp)

theorem remove_students_foldl (location : Nat) (identifier : String) :
    ∀ (students acc : List (List String)),
      students.foldl (fun updated_list student =>
          if student.getD location "" ≠ identifier then
            updated_list ++ [student]
          else updated_list) acc
        = acc ++ students.filter
            (fun student => student.getD location "" != identifier) := by
  intro students
  induction students with
  | nil => intro acc; simp
  | cons s rest ih =>
    intro acc
    by_cases h : s.getD location "" = identifier <;>
      simp_all [List.filter_cons]

/-- C7: for every course-code extractor and date normalizer and every list
of raw Source B rows, `clean_lp_data` drops exactly those cleaned rows
whose extracted course-code field (index 2) equals the literal string
"Skip" by exact case-sensitive comparison, and returns all remaining rows
unmerged and undeduplicated in their original input order. -/
theorem clean_lp_data_filters_skip (ecc dcd : String → String)
    (raw_data : List (List String)) :
    clean_lp_data ecc dcd raw_data
      = (raw_data.map (fun student =>
          [pyStrip (student.getD 0 ""), pyStrip (student.getD 1 ""),
           pyStrip (ecc (student.getD 2 "")), dcd (student.getD 3 ""),
           dcd (student.getD 4 "")])).filter
          (fun row => row.getD 2 "" != "Skip") := by
  unfold clean_lp_data
  rw [foldl_append_eq_map]
  unfold remove_students
  rw [remove_students_foldl]
  simp

/-- C1 counterexample: on the raw Source A row
`["1","C","T","1/1/2020","1/1/2021"]` both date fields are non-empty, yet
the cleaned StartDate and ExpiryDate are the 8-character strings
"1/1/2020" and "1/1/2021", which do not match DD/MM/YYYY with zero-padded
day and month. -/
theorem clean_sd_nonempty_date_not_canonical :
    ("1/1/2020" : String) ≠ "" ∧ ("1/1/2021" : String) ≠ "" ∧
    clean_sd_data [["1", "C", "T", "1/1/2020", "1/1/2021"]]
      = [["1", "C", "1/1/2020", "1/1/2021"]] ∧
    matchesDDMMYYYY "1/1/2020" = false ∧
    matchesDDMMYYYY "1/1/2021" = false := by
  decide

/-- C1 (amended): for every raw Source A row whose EnrolmentDate and
ExpiryDate fields already match DD/MM/YYYY or match D/MM/YYYY (day
missing its leading zero), the StartDate and ExpiryDate fields of the
corresponding cleaned row produced by `clean_sd_data` match DD/MM/YYYY
with zero-padded two-digit day and month; when a raw date field is empty,
the cleaned field is empty. -/
theorem clean_sd_dates_canonical (rows : List (List String)) (i : Nat)
    (row : List String) (h : rows[i]? = some row) :
    ((matchesDDMMYYYY (row.getD 3 "") = true ∨
        matchesDMMYYYY (row.getD 3 "") = true) →
      matchesDDMMYYYY (((clean_sd_data rows).getD i []).getD 2 "") = true) ∧
    (row.getD 3 "" = "" → ((clean_sd_data rows).getD i []).getD 2 "" = "") ∧
    ((matchesDDMMYYYY (row.getD 4 "") = true ∨
        matchesDMMYYYY (row.getD 4 "") = true) →
      matchesDDMMYYYY (((clean_sd_data rows).getD i []).getD 3 "") = true) ∧
    (row.getD 4 "" = "" → ((clean_sd_data rows).getD i []).getD 3 "" = "") := by
  have hmap : clean_sd_data rows = rows.map (fun student =>
      [pyStrip (student.getD 0 ""), pyStrip (student.getD 1 ""),
       clean_date (student.getD 3 ""), clean_date (student.getD 4 "")]) := by
    unfold clean_sd_data
    rw [foldl_append_eq_map]
    simp
  have hrow : (clean_sd_data rows).getD i []
      = [pyStrip (row.getD 0 ""), pyStrip (row.getD 1 ""),
         clean_date (row.getD 3 ""), clean_date (row.getD 4 "")] := by
    rw [hmap, List.getD_eq_getElem?_getD, List.getElem?_map, h]
    rfl
  rw [hrow]
  refine ⟨fun hd => ?_, fun hd => ?_, fun hd => ?_, fun hd => ?_⟩
  · show matchesDDMMYYYY (clean_date (row.getD 3 "")) = true
    rcases hd with hd | hd
    · exact clean_date_preserves_DD hd
    · exact clean_date_pads_DMM hd
  · show clean_date (row.getD 3 "") = ""
    rw [hd]; rfl
  · show matchesDDMMYYYY (clean_date (row.getD 4 "")) = true
    rcases hd with hd | hd
    · exact clean_date_preserves_DD hd
    · exact clean_date_pads_DMM hd
  · show clean_date (row.getD 4 "") = ""
    rw [hd]; rfl

/-- Witness for the amended C1 at the concrete row
`["1","C","T","1/03/2020",""]`: the D/MM/YYYY StartDate cleans to a
DD/MM/YYYY string and the empty ExpiryDate stays empty. -/
theorem clean_sd_dates_canonical_witness :
    matchesDDMMYYYY
        (((clean_sd_data [["1", "C", "T", "1/03/2020", ""]]).getD 0 []).getD
          2 "") = true ∧
    ((clean_sd_data [["1", "C", "T", "1/03/2020", ""]]).getD 0 []).getD 3 ""
      = "" :=
  ⟨(clean_sd_dates_canonical [["1", "C", "T", "1/03/2020", ""]] 0
      ["1", "C", "T", "1/03/2020", ""] rfl).1 (Or.inr (by decide)),
   (clean_sd_dates_canonical [["1", "C", "T", "1/03/2020", ""]] 0
      ["1", "C", "T", "1/03/2020", ""] rfl).2.2.2 rfl⟩

/-- C2 counterexample: with Source A StartDate "1/3/2020" (8 characters,
D/M/YYYY), `clean_sd_data` leaves it as "1/3/2020" — not "01/03/2020" as
the claim states — while the Source B side cleans to "01/03/2020", so
`compare_dates` reports a mismatch for student "1001". -/
theorem end_to_end_scenario_mismatch :
    clean_sd_data [["1001", "C", "T", "1/3/2020", "01/01/2021"]]
      = [["1001", "C", "1/3/2020", "01/01/2021"]] ∧
    ("1/3/2020" : String) ≠ "01/03/2020" ∧
    clean_lp_data (fun s => s) da_clean_date
        [["1001", "Ann", "C", "2020-03-01T00:00:00", "2021-01-01T00:00:00"]]
      = [["1001", "Ann", "C", "01/03/2020", "01/01/2021"]] ∧
    compare_dates
        (clean_lp_data (fun s => s) da_clean_date
          [["1001", "Ann", "C", "2020-03-01T00:00:00", "2021-01-01T00:00:00"]])
        (clean_sd_data [["1001", "C", "T", "1/3/2020", "01/01/2021"]])
        0 0 3 2 [Sum.inl 0, Sum.inl 1, Sum.inl 2, Sum.inl 3, Sum.inr 2]
      = [[some "1001", some "Ann", some "C", some "01/03/2020",
          some "1/3/2020"]] := by
  decide

/-- C2 (amended): in the end-to-end scenario with Source A StartDate
"1/03/2020" (D/MM/YYYY, the shape `clean_date` pads) and Source B
StartDate "2020-03-01T00:00:00", cleaning yields "01/03/2020" on both
sides and `compare_dates` on the two cleaned tables reports no mismatch
for student "1001". -/
theorem end_to_end_scenario_match :
    clean_sd_data [["1001", "C", "T", "1/03/2020", "01/01/2021"]]
      = [["1001", "C", "01/03/2020", "01/01/2021"]] ∧
    clean_lp_data (fun s => s) da_clean_date
        [["1001", "Ann", "C", "2020-03-01T00:00:00", "2021-01-01T00:00:00"]]
      = [["1001", "Ann", "C", "01/03/2020", "01/01/2021"]] ∧
    compare_dates
        (clean_lp_data (fun s => s) da_clean_date
          [["1001", "Ann", "C", "2020-03-01T00:00:00", "2021-01-01T00:00:00"]])
        (clean_sd_data [["1001", "C", "T", "1/03/2020", "01/01/2021"]])
        0 0 3 2 [Sum.inl 0, Sum.inl 1, Sum.inl 2, Sum.inl 3, Sum.inr 2]
      = [] := by
  decide

/-- C4: `compare_dates` returns exactly those rows of the left join —
in which every left-table row appears at least once, an unmatched key
fills the right side with the null marker, and duplicate right-table
keys fan out to one joined row per match — whose two date cells differ
under exact string equality with the null marker unequal to any real
date, projected to the output columns in original join order; when every
joined row's date pair matches the result is empty, and a left-only row
always appears in the result with a null right-hand side. -/
theorem compare_dates_left_join_diff (df1 df2 : List (List String))
    (k1 k2 c1 c2 : Nat) (headings : List (Nat ⊕ Nat)) :
    (compare_dates df1 df2 k1 k2 c1 c2 headings
      = ((mergeLeft df1 df2 k1 k2).filter
          (fun jr => dateMismatch c1 c2 jr)).map (projectRow headings)) ∧
    (∀ r1, r1 ∈ df1 → ∃ o, JoinedRow.mk r1 o ∈ mergeLeft df1 df2 k1 k2) ∧
    (∀ r1, r1 ∈ df1 →
      df2.filter (fun r2 => r2.getD k2 "" == r1.getD k1 "") = [] →
      JoinedRow.mk r1 none ∈ mergeLeft df1 df2 k1 k2) ∧
    (∀ r1 r2, r1 ∈ df1 → r2 ∈ df2 → r2.getD k2 "" = r1.getD k1 "" →
      JoinedRow.mk r1 (some r2) ∈ mergeLeft df1 df2 k1 k2) ∧
    (∀ l, dateMismatch c1 c2 (JoinedRow.mk l none) = true) ∧
    (∀ l r, dateMismatch c1 c2 (JoinedRow.mk l (some r))
      = (l.getD c1 "" != r.getD c2 "")) ∧
    ((∀ jr ∈ mergeLeft df1 df2 k1 k2, dateMismatch c1 c2 jr = false) →
      compare_dates df1 df2 k1 k2 c1 c2 headings = []) ∧
    (∀ r1, r1 ∈ df1 →
      df2.filter (fun r2 => r2.getD k2 "" == r1.getD k1 "") = [] →
      projectRow headings (JoinedRow.mk r1 none)
        ∈ compare_dates df1 df2 k1 k2 c1 c2 headings) := by
  have hfold : compare_dates df1 df2 k1 k2 c1 c2 headings
      = ((mergeLeft df1 df2 k1 k2).filter
          (fun jr => dateMismatch c1 c2 jr)).map (projectRow headings) := by
    unfold compare_dates
    rw [foldl_ite_append_eq_filter_map]
    rfl
  have hnull : ∀ r1, r1 ∈ df1 →
      df2.filter (fun r2 => r2.getD k2 "" == r1.getD k1 "") = [] →
      JoinedRow.mk r1 none ∈ mergeLeft df1 df2 k1 k2 := by
    intro r1 h1 h2
    unfold mergeLeft
    refine List.mem_flatMap.mpr ⟨r1, h1, ?_⟩
    rw [h2]
    simp
  have hsome : ∀ r1 r2, r1 ∈ df1 → r2 ∈ df2 →
      r2.getD k2 "" = r1.getD k1 "" →
      JoinedRow.mk r1 (some r2) ∈ mergeLeft df1 df2 k1 k2 := by
    intro r1 r2 h1 h2 hkey
    unfold mergeLeft
    refine List.mem_flatMap.mpr ⟨r1, h1, ?_⟩
    have hkey2 : (r2.getD k2 "" == r1.getD k1 "") = true := by
      simp only [beq_iff_eq]
      exact hkey
    have hr2 : r2 ∈ df2.filter (fun r2 => r2.getD k2 "" == r1.getD k1 "") :=
      List.mem_filter.mpr ⟨h2, hkey2⟩
    have hne : ¬(df2.filter
        (fun r2 => r2.getD k2 "" == r1.getD k1 "")).isEmpty = true := by
      intro habs
      rw [List.isEmpty_iff] at habs
      rw [habs] at hr2
      exact absurd hr2 (List.not_mem_nil r2)
    rw [if_neg hne]
    exact List.mem_map.mpr ⟨r2, hr2, rfl⟩
  refine ⟨hfold, ?_, hnull, hsome, fun l => rfl, fun l r => rfl, ?_, ?_⟩
  · intro r1 h1
    by_cases h2 : df2.filter (fun r2 => r2.getD k2 "" == r1.getD k1 "") = []
    · exact ⟨none, hnull r1 h1 h2⟩
    · obtain ⟨r2, hr2⟩ := List.exists_mem_of_ne_nil _ h2
      have hr2d := (List.mem_filter.mp hr2).1
      have hkey : r2.getD k2 "" = r1.getD k1 "" := by
        have := (List.mem_filter.mp hr2).2
        simpa using this
      exact ⟨some r2, hsome r1 r2 h1 hr2d hkey⟩
  · intro hall
    rw [hfold]
    have hfil : (mergeLeft df1 df2 k1 k2).filter
        (fun jr => dateMismatch c1 c2 jr) = [] := by
      rw [List.filter_eq_nil_iff]
      intro jr hjr
      simp [hall jr hjr]
    rw [hfil]
    rfl
  · intro r1 h1 h2
    rw [hfold]
    exact List.mem_map.mpr ⟨JoinedRow.mk r1 none,
      List.mem_filter.mpr ⟨hnull r1 h1 h2, rfl⟩, rfl⟩

/-- Witness for C4 at concrete tables: a left-only row joins with the
null marker, a fully matching pair yields an empty result, a left-only
row appears in the result, and a matching key pair joins with the right
row. -/
theorem compare_dates_left_join_diff_witness :
    (JoinedRow.mk ["7", "a"] none ∈ mergeLeft [["7", "a"]] [] 0 0) ∧
    (compare_dates [["7", "a"]] [["7", "a"]] 0 0 1 1 [Sum.inl 0] = []) ∧
    (projectRow [Sum.inl 0, Sum.inr 1] (JoinedRow.mk ["7", "a"] none)
      ∈ compare_dates [["7", "a"]] [["8", "b"]] 0 0 1 1
          [Sum.inl 0, Sum.inr 1]) ∧
    (JoinedRow.mk ["7", "a"] (some ["7", "b"])
      ∈ mergeLeft [["7", "a"]] [["7", "b"]] 0 0) :=
  ⟨((compare_dates_left_join_diff [["7", "a"]] [] 0 0 1 1 []).2.2.1
      ["7", "a"] (by decide) (by decide)),
   ((compare_dates_left_join_diff [["7", "a"]] [["7", "a"]] 0 0 1 1
      [Sum.inl 0]).2.2.2.2.2.2.1 (by decide)),
   ((compare_dates_left_join_diff [["7", "a"]] [["8", "b"]] 0 0 1 1
      [Sum.inl 0, Sum.inr 1]).2.2.2.2.2.2.2 ["7", "a"] (by decide) (by decide)),
   ((compare_dates_left_join_diff [["7", "a"]] [["7", "b"]] 0 0 1 1
      []).2.2.2.1 ["7", "a"] ["7", "b"] (by decide) (by decide) (by decide))⟩
